import Mathlib

/-!
Shallow embedding of the audio-capture chrome extension.

The embedding covers: the externally visible recording status and the
RECORDING_STATUS messages, the AudioQualitySettings value and the
MediaRecorder options built from it in the two source variants
(pages/side-panel/src/tools/captureAudio.ts and the sibling variant that
uses a per-element WeakMap, called part002 below), the page-side routing
graph built by createPassiveStream together with the poll loop
checkForNewMediaElements and the cleanup handler, the recorder onstop
handlers, the top-level captureAudio control flow (active-tab check, URL
eligibility check, stop-request handling), the download filename logic of
SidePanel.tsx, and the RecordingStore of stores/recordingStore.ts.
-/

namespace AudioCap

/-- Externally visible recording status (side-panel types). -/
inductive RecordingStatus where
  | inactive
  | waiting
  | recording
deriving DecidableEq

/-- An opaque in-memory encoded audio object: a Blob holding the
accumulated chunk sizes and a declared media type string. -/
structure Blob where
  parts : List ℕ
  type : String
deriving DecidableEq

/-- A RECORDING_STATUS message sent via chrome.runtime.sendMessage:
a status, an optional human-readable message, and an optional artifact
reference (the object URL of the encoded blob, modelled as the blob). -/
structure StatusMessage where
  status : RecordingStatus
  message : Option String := none
  audioUrl : Option Blob := none
deriving DecidableEq

/-- AudioQualitySettings from tools/captureAudio.ts: sample rate,
bit depth, channel count and the 0-5 quality-degradation level. -/
structure AudioQualitySettings where
  sampleRate : ℕ
  bitDepth : ℕ
  channels : ℕ
  vbrQuality : ℕ
deriving DecidableEq

/-- The legal values of the AudioQualitySettings interface type. -/
def AudioQualitySettings.ValidQ (s : AudioQualitySettings) : Prop :=
  (s.sampleRate = 44100 ∨ s.sampleRate = 48000 ∨ s.sampleRate = 96000) ∧
  (s.bitDepth = 16 ∨ s.bitDepth = 24 ∨ s.bitDepth = 32) ∧
  (s.channels = 1 ∨ s.channels = 2) ∧
  s.vbrQuality ≤ 5

/-- The option bag passed to the MediaRecorder constructor. -/
structure MediaRecorderOptions where
  mimeType : String
  audioBitsPerSecond : ℤ
deriving DecidableEq

/-- Math.floor(320000 * (1 - vbrQuality * 0.15)) from
tools/captureAudio.ts; for vbrQuality in 0..5 the double-precision
computation of the source agrees with the exact rational one. -/
def vbrBitrate (q : ℕ) : ℤ :=
  Int.floor ((320000 : ℚ) * (1 - (q : ℚ) * (15 / 100)))

/-- MediaRecorder options built in tools/captureAudio.ts: fixed webm
opus mime type, bitrate derived from the vbrQuality level. -/
def toolsRecorderOptions (s : AudioQualitySettings) : MediaRecorderOptions :=
  { mimeType := "audio/webm;codecs=opus", audioBitsPerSecond := vbrBitrate s.vbrQuality }

/-- MediaRecorder options built in the part002 variant: fixed webm opus
mime type and a hardcoded 128000 bits-per-second. -/
def part002RecorderOptions (_s : AudioQualitySettings) : MediaRecorderOptions :=
  { mimeType := "audio/webm;codecs=opus", audioBitsPerSecond := 128000 }

/-- The sample rate handed to the AudioContext constructor. -/
def audioContextSampleRate (s : AudioQualitySettings) : ℕ :=
  s.sampleRate

/-- The complete page-side encoding configuration derived from the
settings in tools/captureAudio.ts: recorder options and context rate. -/
def toolsPageConfig (s : AudioQualitySettings) : MediaRecorderOptions × ℕ :=
  (toolsRecorderOptions s, audioContextSampleRate s)

/-- The complete page-side encoding configuration derived from the
settings in the part002 variant. -/
def part002PageConfig (s : AudioQualitySettings) : MediaRecorderOptions × ℕ :=
  (part002RecorderOptions s, audioContextSampleRate s)

/-- The recorder onstop handler of the part002 variant: a non-empty
chunk list yields one inactive message carrying the blob, an empty one
yields one inactive message with an explanatory text and no artifact. -/
def part002Onstop (chunks : List ℕ) : List StatusMessage :=
  if 0 < chunks.length then
    [{ status := RecordingStatus.inactive,
       audioUrl := some { parts := chunks, type := "audio/webm;codecs=opus" } }]
  else
    [{ status := RecordingStatus.inactive, message := some "No audio data recorded" }]

/-- The recorder onstop handler of tools/captureAudio.ts: a non-empty
chunk list yields one inactive message carrying the blob; an empty one
only runs cleanup and resolves null, sending no message at all. -/
def toolsOnstop (chunks : List ℕ) : List StatusMessage :=
  if 0 < chunks.length then
    [{ status := RecordingStatus.inactive, message := some "Recording stopped",
       audioUrl := some { parts := chunks, type := "audio/webm;codecs=opus" } }]
  else
    []

/-- The artifacts carried by a list of status messages. -/
def artifactsOf (msgs : List StatusMessage) : List Blob :=
  msgs.filterMap (fun m => m.audioUrl)

/-- Char-list prefix test used by the string tests below. -/
def prefMatch : List Char → List Char → Bool
  | [], _ => true
  | _ :: _, [] => false
  | a :: pa, b :: pb => a == b && prefMatch pa pb

/-- Char-list substring search. -/
def occursInChars (pat : List Char) : List Char → Bool
  | [] => prefMatch pat []
  | b :: rest => prefMatch pat (b :: rest) || occursInChars pat rest

/-- String.prototype.includes of the source. -/
def strIncludes (u pat : String) : Bool :=
  occursInChars pat.toList u.toList

/-- String.prototype.startsWith of the source. -/
def strStarts (u pat : String) : Bool :=
  prefMatch pat.toList u.toList

/-- A browser tab as seen by chrome.tabs.query: optional id and url. -/
structure Tab where
  id : Option ℕ
  url : Option String
deriving DecidableEq

/-- MediaRecorder.state values. -/
inductive RecState where
  | inactiveR
  | recordingR
  | pausedR
deriving DecidableEq

/-- The URL eligibility test of tools/captureAudio.ts: a missing or
falsy url, or one under chrome://, edge:// or about: is rejected. -/
def privilegedUrlTools (url : Option String) : Bool :=
  match url with
  | none => true
  | some u =>
      u == "" || strStarts u "chrome://" || strStarts u "edge://" ||
      strStarts u "about:"

/-- The URL eligibility test of the part002 variant: additionally
rejects chrome-extension:// pages, chrome://newtab/ and about:blank. -/
def privilegedUrlPart002 (url : Option String) : Bool :=
  match url with
  | none => true
  | some u =>
      u == "" || strStarts u "chrome://" || strStarts u "edge://" ||
      strStarts u "about:" || strStarts u "chrome-extension://" ||
      u == "chrome://newtab/" || u == "about:blank"

/-- Result of one top-level captureAudio call: the status messages the
extension side emits during the call, the page recorder state after the
call, whether the recording-setup script was injected, and the value
the call returns. -/
structure CallOutcome where
  messages : List StatusMessage
  page : Option RecState
  setupInjected : Bool
  result : Option String
deriving DecidableEq

/-- The injected stop script: stop the page MediaRecorder only when one
exists and is in the recording state; otherwise do nothing. -/
def stopScriptRun (page : Option RecState) : Option RecState :=
  match page with
  | some RecState.recordingR => some RecState.inactiveR
  | p => p

/-- Top-level control flow of captureAudio in the part002 variant:
active-tab check (with an inactive message on failure), then the URL
eligibility check (with an inactive message on failure), then the
stop-request branch, then injection of the recording setup. -/
def part002CaptureAudio (tab : Option Tab) (isStopRequest : Bool)
    (page : Option RecState) : CallOutcome :=
  match tab with
  | none =>
      { messages := [{ status := RecordingStatus.inactive, message := some "No active tab found" }],
        page := page, setupInjected := false, result := none }
  | some t =>
    match t.id with
    | none =>
        { messages := [{ status := RecordingStatus.inactive, message := some "No active tab found" }],
          page := page, setupInjected := false, result := none }
    | some _ =>
      if privilegedUrlPart002 t.url then
        { messages := [{ status := RecordingStatus.inactive,
                         message := some "Cannot record audio on this page" }],
          page := page, setupInjected := false, result := none }
      else if isStopRequest then
        { messages := [], page := stopScriptRun page, setupInjected := false, result := none }
      else
        { messages := [], page := page, setupInjected := true, result := none }

/-- Top-level control flow of captureAudio in tools/captureAudio.ts:
active-tab check (silent), then the stop-request branch (before any URL
check), then the URL eligibility check (silent), then injection. -/
def toolsCaptureAudio (tab : Option Tab) (isStopRequest : Bool)
    (page : Option RecState) : CallOutcome :=
  match tab with
  | none => { messages := [], page := page, setupInjected := false, result := none }
  | some t =>
    match t.id with
    | none => { messages := [], page := page, setupInjected := false, result := none }
    | some _ =>
      if isStopRequest then
        { messages := [], page := stopScriptRun page, setupInjected := false, result := none }
      else if privilegedUrlTools t.url then
        { messages := [], page := page, setupInjected := false, result := none }
      else
        { messages := [], page := page, setupInjected := true, result := none }

/-- A media element on the page, with the fields the discovery pass
reads: identity, paused, ended and current playback position. -/
structure MediaElement where
  id : ℕ
  paused : Bool
  ended : Bool
  currentTime : ℚ
deriving DecidableEq

/-- The playing test of the source: not paused, not ended and at a
positive playback position. -/
def MediaElement.isCurrentlyPlaying (e : MediaElement) : Bool :=
  !e.paused && !e.ended && decide (0 < e.currentTime)

/-- The page-side audio state built by the part002 injected script:
the WeakMap keys holding a MediaElementAudioSourceNode (sources), the
multiset of source-to-context-destination playback connections, the
multiset of gain-to-recordingDestination capture branches, the elements
with play/playing handlers registered, the recorder activity flag, the
recording destination liveness and the emitted message trace. -/
structure PageState where
  sources : List ℕ
  playbackConns : List ℕ
  captureBranches : List ℕ
  routed : List ℕ
  recorderActive : Bool
  destinationConnected : Bool
  msgs : List StatusMessage
deriving DecidableEq

/-- startRecording of the part002 variant: start the recorder and emit
one recording message unless it is already recording. -/
def part002StartRecording (st : PageState) : PageState :=
  if st.recorderActive then st
  else
    { st with recorderActive := true,
              msgs := st.msgs ++ [{ status := RecordingStatus.recording,
                                    message := some "Recording in progress..." }] }

/-- createPassiveStream of the part002 variant: create a media source
and its playback connection only when the WeakMap has none for this
element, always add a fresh gain branch to the recording destination,
start recording when the element is already playing, and register the
play/playing handlers. -/
def part002CreatePassiveStream (st : PageState) (e : MediaElement) : PageState :=
  let st1 :=
    if e.id ∈ st.sources then st
    else { st with sources := e.id :: st.sources,
                   playbackConns := e.id :: st.playbackConns }
  let st2 := { st1 with captureBranches := e.id :: st1.captureBranches }
  let st3 := if e.isCurrentlyPlaying then part002StartRecording st2 else st2
  { st3 with routed := e.id :: st3.routed }

/-- The play/playing handler registered on a routed element: start the
recorder unless it is already recording. -/
def part002PlayHandler (st : PageState) : PageState :=
  if st.recorderActive then st else part002StartRecording st

/-- The injected setup body of the part002 variant: emit the initial
waiting message, then route every media element found at injection
time, or emit a second waiting message when there are none. -/
def part002Setup (elements : List MediaElement) : PageState :=
  let st0 : PageState :=
    { sources := [], playbackConns := [], captureBranches := [], routed := [],
      recorderActive := false, destinationConnected := true,
      msgs := [{ status := RecordingStatus.waiting, message := some "Waiting for audio..." }] }
  if elements.isEmpty then
    { st0 with msgs := st0.msgs ++ [{ status := RecordingStatus.waiting,
                                      message := some "Waiting for audio elements..." }] }
  else
    elements.foldl part002CreatePassiveStream st0

/-- One tick of checkForNewMediaElements: route every current element
whose identity is not yet in the processedElements set, and add it to
the set.  The set starts empty: elements routed at injection time are
not in it. -/
def part002PollTick (st : PageState) (processed : List ℕ)
    (current : List MediaElement) : PageState × List ℕ :=
  current.foldl
    (fun acc e =>
      if e.id ∈ acc.2 then acc
      else (part002CreatePassiveStream acc.1 e, e.id :: acc.2))
    (st, processed)

/-- The cleanup handler of the part002 variant: disconnect and drop the
recording destination and the recorder reference; explicitly keeps the
audio context, the sources and their playback connections. -/
def part002CleanupRecording (st : PageState) : PageState :=
  { st with destinationConnected := false }

/-- The extension choice of handleDownload in SidePanel.tsx, applied to
the download URL string: wav, then mp3/mpeg, then aac as m4a, with webm
as the default for everything unrecognized. -/
def chosenExt (url : String) : String :=
  if strIncludes url "audio/wav" then "wav"
  else if strIncludes url "audio/mp3" || strIncludes url "audio/mpeg" then "mp3"
  else if strIncludes url "audio/aac" then "m4a"
  else "webm"

/-- The download filename of handleDownload in SidePanel.tsx, built
from the recording timestamp, its formatted duration, the upper-cased
quality label and the chosen extension. -/
def downloadFilename (timestamp duration qualityLabel url : String) : String :=
  "recording-" ++ timestamp ++ "-" ++ duration ++ "-" ++ qualityLabel ++ "." ++ chosenExt url

/-- The RecordingStore state: current status and the set of subscribed
listeners, identified by a key (the Set of listener closures). -/
structure StoreState where
  status : RecordingStatus
  listeners : Finset ℕ
deriving DecidableEq

/-- RecordingStore.setStatus: store the new status and notify every
subscribed listener with it; returns the new state and the multiset of
(listener, status) notifications delivered. -/
def setStatus (st : StoreState) (s : RecordingStatus) :
    StoreState × Multiset (ℕ × RecordingStatus) :=
  ({ st with status := s }, st.listeners.val.map (fun l => (l, s)))

/-- RecordingStore.subscribe: add the listener to the set. -/
def subscribe (st : StoreState) (l : ℕ) : StoreState :=
  { st with listeners := insert l st.listeners }

/-- The unsubscribe closure returned by subscribe: remove the listener
from the set. -/
def unsubscribe (st : StoreState) (l : ℕ) : StoreState :=
  { st with listeners := st.listeners.erase l }

/-- Claim C1 counterexample: the encoding configuration built from the
settings is identical for bit depth 16 and bit depth 24 (and carries no
bit depth or channel field at all), so no reading of the produced
container can return the session's chosen bitDepth for every valid
QualitySettings, contradicting the claim that the container's declared
bit depth equals the chosen one. -/
theorem C1_counterexample :
    toolsPageConfig ⟨48000, 16, 2, 0⟩ = toolsPageConfig ⟨48000, 24, 2, 0⟩ ∧
    part002PageConfig ⟨48000, 16, 2, 0⟩ = part002PageConfig ⟨48000, 24, 2, 0⟩ ∧
    ¬ ∃ declaredBitDepth : MediaRecorderOptions × ℕ → ℕ,
        ∀ s : AudioQualitySettings, s.ValidQ →
          declaredBitDepth (toolsPageConfig s) = s.bitDepth := by
  refine ⟨rfl, rfl, ?_⟩
  rintro ⟨f, hf⟩
  have h16 : f (toolsPageConfig ⟨48000, 16, 2, 0⟩) = 16 := by
    exact hf ⟨48000, 16, 2, 0⟩ ⟨Or.inr (Or.inl rfl), Or.inl rfl, Or.inr rfl, by decide⟩
  have h24 : f (toolsPageConfig ⟨48000, 24, 2, 0⟩) = 24 := by
    exact hf ⟨48000, 24, 2, 0⟩
      ⟨Or.inr (Or.inl rfl), Or.inr (Or.inl rfl), Or.inr rfl, by decide⟩
  have heq : toolsPageConfig ⟨48000, 16, 2, 0⟩ = toolsPageConfig ⟨48000, 24, 2, 0⟩ := rfl
  rw [heq, h24] at h16
  exact absurd h16 (by omega)

/-- Claim C1 (amended): the artifact is always encoded as
audio/webm;codecs=opus; of the QualitySettings only the sampleRate is
honored (it is passed to the AudioContext) and, in the
tools/captureAudio.ts variant, the vbrQuality (through the bitrate);
two settings with the same vbrQuality yield identical recorder options,
so bitDepth and channels never reach the container, and the blob handed
back by the stop handler always declares the webm opus type. -/
theorem C1_amended (s1 s2 : AudioQualitySettings) (hq : s1.vbrQuality = s2.vbrQuality) :
    audioContextSampleRate s1 = s1.sampleRate ∧
    (toolsRecorderOptions s1).mimeType = "audio/webm;codecs=opus" ∧
    toolsRecorderOptions s1 = toolsRecorderOptions s2 ∧
    part002RecorderOptions s1 = part002RecorderOptions s2 ∧
    (∀ chunks : List ℕ, ∀ m ∈ part002Onstop chunks, ∀ b, m.audioUrl = some b →
        b.type = "audio/webm;codecs=opus") := by
  refine ⟨rfl, rfl, ?_, rfl, ?_⟩
  · simp only [toolsRecorderOptions, hq]
  · intro chunks m hm b hb
    unfold part002Onstop at hm
    by_cases h : 0 < chunks.length
    · simp only [h, if_pos, List.mem_singleton] at hm
      subst hm
      simp only [Option.some.injEq] at hb
      subst hb
      rfl
    · simp only [h, if_neg, List.mem_singleton, not_false_iff] at hm
      subst hm
      simp at hb

/-- Claim C1 witness for the amended theorem at concrete settings. -/
theorem C1_amended_witness :
    audioContextSampleRate ⟨48000, 24, 2, 0⟩ = 48000 ∧
    toolsRecorderOptions ⟨48000, 24, 2, 0⟩ = toolsRecorderOptions ⟨44100, 16, 1, 0⟩ := by
  have h := C1_amended ⟨48000, 24, 2, 0⟩ ⟨44100, 16, 1, 0⟩ rfl
  exact ⟨h.1, h.2.2.1⟩

/-- Claim C8 counterexample: the part002 variant configures its
recorder with a hardcoded 128000 bits-per-second, which differs from
the claimed floor(320000 * (1 - vbrQuality * 0.15)) already at the
quality-degradation level 0. -/
theorem C8_counterexample :
    (part002RecorderOptions ⟨48000, 24, 2, 0⟩).audioBitsPerSecond ≠
      Int.floor ((320000 : ℚ) * (1 - ((0 : ℕ) : ℚ) * (15 / 100))) := by
  norm_num [part002RecorderOptions]

/-- Claim C8 (amended): in the tools/captureAudio.ts recorder the
configured bits-per-second equals floor(320000 * (1 - vbrQuality *
0.15)) for every vbrQuality at most 5, and concretely equals
320000 - 48000 * vbrQuality; the part002 variant instead always
configures 128000. -/
theorem C8_amended (s : AudioQualitySettings) (h : s.vbrQuality ≤ 5) :
    (toolsRecorderOptions s).audioBitsPerSecond =
      Int.floor ((320000 : ℚ) * (1 - (s.vbrQuality : ℚ) * (15 / 100))) ∧
    (toolsRecorderOptions s).audioBitsPerSecond = 320000 - 48000 * (s.vbrQuality : ℤ) ∧
    (part002RecorderOptions s).audioBitsPerSecond = 128000 := by
  refine ⟨rfl, ?_, rfl⟩
  obtain ⟨sr, bd, ch, q⟩ := s
  simp only [toolsRecorderOptions, vbrBitrate]
  interval_cases q <;> norm_num

/-- Claim C8 witness for the amended theorem at vbrQuality 2. -/
theorem C8_amended_witness :
    (toolsRecorderOptions ⟨48000, 24, 2, 2⟩).audioBitsPerSecond = 320000 - 48000 * 2 :=
  (C8_amended ⟨48000, 24, 2, 2⟩ (by decide)).2.1

/-- Claim C3 counterexample: in the tools/captureAudio.ts stop handler
a recording that accumulated zero chunks emits no status message at
all, so the recording-to-inactive transition there is silent, against
the claim that exactly one inactive message with an explanatory text is
emitted. -/
theorem C3_counterexample :
    toolsOnstop [] = [] ∧ ¬ (toolsOnstop []).length = 1 := by
  decide

/-- Claim C3 (amended): an artifact is constructed if and only if the
accumulated chunk sequence is non-empty, in both stop handlers; in the
part002 stop handler every stop emits exactly one message, it is an
inactive message, and the zero-chunk stop carries the explanatory text
and no artifact.  The tools/captureAudio.ts handler emits no message on
a zero-chunk stop. -/
theorem C3_amended (chunks : List ℕ) :
    (part002Onstop chunks).length = 1 ∧
    (∀ m ∈ part002Onstop chunks, m.status = RecordingStatus.inactive) ∧
    (artifactsOf (part002Onstop chunks) ≠ [] ↔ chunks ≠ []) ∧
    (artifactsOf (toolsOnstop chunks) ≠ [] ↔ chunks ≠ []) ∧
    (chunks = [] → part002Onstop chunks =
      [{ status := RecordingStatus.inactive, message := some "No audio data recorded" }]) ∧
    (chunks = [] → toolsOnstop chunks = []) := by
  by_cases h : chunks = []
  · subst h
    refine ⟨by decide, by decide, by decide, by decide, fun _ => rfl, fun _ => rfl⟩
  · have hl : 0 < chunks.length := List.length_pos.mpr h
    unfold part002Onstop toolsOnstop artifactsOf
    simp only [hl, if_pos]
    refine ⟨rfl, ?_, ?_, ?_, fun hc => absurd hc h, fun hc => absurd hc h⟩
    · intro m hm
      simp only [List.mem_singleton] at hm
      subst hm
      rfl
    · simp [h]
    · simp [h]

/-- Claim C3 witness for the amended theorem at an empty and a
singleton chunk sequence. -/
theorem C3_amended_witness :
    (part002Onstop []).length = 1 ∧
    artifactsOf (part002Onstop []) = [] ∧
    toolsOnstop [] = [] ∧
    artifactsOf (part002Onstop [7]) ≠ [] := by
  have h0 := C3_amended []
  have h1 := C3_amended [7]
  refine ⟨h0.1, ?_, h0.2.2.2.2.2 rfl, h1.2.2.1.mpr (by decide)⟩
  by_contra hne
  exact (h0.2.2.1.mp hne) rfl

/-- Helper: startRecording only touches the recorder flag and the
message trace, never the routing graph. -/
theorem part002StartRecording_graph (st : PageState) :
    (part002StartRecording st).sources = st.sources ∧
    (part002StartRecording st).playbackConns = st.playbackConns ∧
    (part002StartRecording st).captureBranches = st.captureBranches ∧
    (part002StartRecording st).routed = st.routed := by
  unfold part002StartRecording
  by_cases h : st.recorderActive <;> simp [h]

/-- Helper: the routing-graph effect of one createPassiveStream call:
source and playback connection are created only for a fresh element,
the capture branch and the handler registration are added always. -/
theorem cps_graph (st : PageState) (e : MediaElement) :
    (part002CreatePassiveStream st e).sources =
      (if e.id ∈ st.sources then st.sources else e.id :: st.sources) ∧
    (part002CreatePassiveStream st e).playbackConns =
      (if e.id ∈ st.sources then st.playbackConns else e.id :: st.playbackConns) ∧
    (part002CreatePassiveStream st e).captureBranches = e.id :: st.captureBranches ∧
    (part002CreatePassiveStream st e).routed = e.id :: st.routed := by
  unfold part002CreatePassiveStream
  by_cases hm : e.id ∈ st.sources <;> by_cases hp : e.isCurrentlyPlaying <;>
    simp [hm, hp, part002StartRecording_graph]

/-- Helper: createPassiveStream on an element that is not currently
playing emits no message and does not start the recorder. -/
theorem cps_not_playing (st : PageState) (e : MediaElement)
    (h : e.isCurrentlyPlaying = false) :
    (part002CreatePassiveStream st e).msgs = st.msgs ∧
    (part002CreatePassiveStream st e).recorderActive = st.recorderActive := by
  unfold part002CreatePassiveStream
  by_cases hm : e.id ∈ st.sources <;> simp [hm, h]

/-- Helper: routing a list of non-playing elements keeps the trace and
the recorder flag, preserves handler registrations and registers every
routed element. -/
theorem setup_fold_inv (elements : List MediaElement) (st0 : PageState)
    (h : ∀ e ∈ elements, e.isCurrentlyPlaying = false) :
    (elements.foldl part002CreatePassiveStream st0).msgs = st0.msgs ∧
    (elements.foldl part002CreatePassiveStream st0).recorderActive = st0.recorderActive ∧
    (∀ i ∈ st0.routed, i ∈ (elements.foldl part002CreatePassiveStream st0).routed) ∧
    (∀ e ∈ elements, e.id ∈ (elements.foldl part002CreatePassiveStream st0).routed) := by
  induction elements generalizing st0 with
  | nil => simp
  | cons a as ih =>
    have ha : a.isCurrentlyPlaying = false := h a (by simp)
    have has : ∀ e ∈ as, e.isCurrentlyPlaying = false := fun e he => h e (by simp [he])
    have hcps := cps_not_playing st0 a ha
    have hrouted : (part002CreatePassiveStream st0 a).routed = a.id :: st0.routed :=
      (cps_graph st0 a).2.2.2
    obtain ⟨h1, h2, h3, h4⟩ := ih (part002CreatePassiveStream st0 a) has
    simp only [List.foldl_cons]
    refine ⟨by rw [h1, hcps.1], by rw [h2, hcps.2], ?_, ?_⟩
    · intro i hi
      exact h3 i (by rw [hrouted]; exact List.mem_cons_of_mem _ hi)
    · intro e he
      rcases List.mem_cons.mp he with rfl | hmem
      · exact h3 e.id (by rw [hrouted]; exact List.mem_cons_self _ _)
      · exact h4 e hmem

/-- Helper: firing the play handler on a state whose recorder is not
yet active starts the recorder and emits one recording message. -/
theorem playHandler_starts (st : PageState) (h : st.recorderActive = false) :
    (part002PlayHandler st).msgs =
      st.msgs ++ [{ status := RecordingStatus.recording,
                    message := some "Recording in progress..." }] ∧
    (part002PlayHandler st).recorderActive = true := by
  simp [part002PlayHandler, part002StartRecording, h]

/-- Claim C2: for every tapped media element the tap is non-intrusive:
under the invariant that each element with a created source has exactly
one playback connection, createPassiveStream gives the tapped element
exactly one playback connection (creating it only when the element was
fresh), re-establishes the invariant, adds only a parallel capture
branch, and the cleanup handler leaves the sources, their playback
connections and the handler registrations untouched. -/
theorem C2_theorem (st : PageState) (e : MediaElement)
    (h : ∀ i, st.playbackConns.count i = if i ∈ st.sources then 1 else 0) :
    (part002CreatePassiveStream st e).playbackConns.count e.id = 1 ∧
    (∀ i, (part002CreatePassiveStream st e).playbackConns.count i =
      if i ∈ (part002CreatePassiveStream st e).sources then 1 else 0) ∧
    (part002CreatePassiveStream st e).captureBranches = e.id :: st.captureBranches ∧
    (∀ s : PageState, (part002CleanupRecording s).playbackConns = s.playbackConns ∧
      (part002CleanupRecording s).sources = s.sources ∧
      (part002CleanupRecording s).routed = s.routed) := by
  obtain ⟨hs, hp, hc, _⟩ := cps_graph st e
  by_cases hm : e.id ∈ st.sources
  · refine ⟨?_, ?_, hc, fun s => ⟨rfl, rfl, rfl⟩⟩
    · rw [hp, if_pos hm, h e.id, if_pos hm]
    · intro i
      rw [hp, if_pos hm, hs, if_pos hm]
      exact h i
  · refine ⟨?_, ?_, hc, fun s => ⟨rfl, rfl, rfl⟩⟩
    · rw [hp, if_neg hm, List.count_cons_self, h e.id, if_neg hm]
    · intro i
      rw [hp, if_neg hm, hs, if_neg hm]
      by_cases hi : i = e.id
      · subst hi
        rw [List.count_cons_self, h e.id, if_neg hm, if_pos (List.mem_cons_self _ _)]
      · rw [List.count_cons_of_ne hi, h i]
        by_cases his : i ∈ st.sources
        · rw [if_pos his, if_pos (List.mem_cons_of_mem _ his)]
        · have hnot : i ∉ e.id :: st.sources := by
            intro hcon
            rcases List.mem_cons.mp hcon with h' | h'
            · exact hi h'
            · exact his h'
          rw [if_neg his, if_neg hnot]

/-- Claim C2 witness: tapping a fresh element in the empty page state
yields exactly one playback connection for it. -/
theorem C2_witness :
    (part002CreatePassiveStream
      { sources := [], playbackConns := [], captureBranches := [], routed := [],
        recorderActive := false, destinationConnected := true, msgs := [] }
      ⟨5, true, false, 0⟩).playbackConns.count 5 = 1 :=
  (C2_theorem
    { sources := [], playbackConns := [], captureBranches := [], routed := [],
      recorderActive := false, destinationConnected := true, msgs := [] }
    ⟨5, true, false, 0⟩ (fun i => by simp)).1

/-- Claim C4: evaluation of the code at the failing input.  A single
paused media element is routed at injection time; the first poll tick
re-visits it because the processedElements set starts empty, and since
the WeakMap only deduplicates the media source, the element ends with
one source, one playback connection, but two gain branches into the
recording destination, against the claimed at-most-one tap. -/
theorem C4_theorem :
    ((part002PollTick (part002Setup [⟨1, true, false, 0⟩]) []
        [⟨1, true, false, 0⟩]).1).sources.count 1 = 1 ∧
    ((part002PollTick (part002Setup [⟨1, true, false, 0⟩]) []
        [⟨1, true, false, 0⟩]).1).playbackConns.count 1 = 1 ∧
    ((part002PollTick (part002Setup [⟨1, true, false, 0⟩]) []
        [⟨1, true, false, 0⟩]).1).captureBranches.count 1 = 2 := by
  decide

/-- Claim C6: a start request on a page where no media element is
currently playing first emits the waiting status, emits no recording
status during setup, leaves the recorder inactive, registers the play
handlers on every element, and only a later play/playing event on a
routed element makes the setup emit the single recording message. -/
theorem C6_theorem (elements : List MediaElement)
    (h : ∀ e ∈ elements, e.isCurrentlyPlaying = false) :
    (part002Setup elements).msgs.head? =
      some { status := RecordingStatus.waiting, message := some "Waiting for audio..." } ∧
    (∀ m ∈ (part002Setup elements).msgs, m.status ≠ RecordingStatus.recording) ∧
    (part002Setup elements).recorderActive = false ∧
    (∀ e ∈ elements, e.id ∈ (part002Setup elements).routed) ∧
    (part002PlayHandler (part002Setup elements)).msgs =
      (part002Setup elements).msgs ++
        [{ status := RecordingStatus.recording,
           message := some "Recording in progress..." }] := by
  by_cases hempty : elements.isEmpty
  · have he : elements = [] := List.isEmpty_iff.mp hempty
    subst he
    exact ⟨by decide, by decide, by decide, by decide, by decide⟩
  · unfold part002Setup
    rw [if_neg hempty]
    obtain ⟨h1, h2, _, h4⟩ := setup_fold_inv elements _ h
    refine ⟨by rw [h1]; rfl, ?_, by rw [h2], h4, (playHandler_starts _ (by rw [h2])).1⟩
    intro m hm
    rw [h1] at hm
    simp only [List.mem_singleton] at hm
    subst hm
    decide

/-- Claim C6 witness: a single paused element at position zero. -/
theorem C6_witness :
    (part002Setup [⟨1, true, false, 0⟩]).msgs.head? =
      some { status := RecordingStatus.waiting, message := some "Waiting for audio..." } ∧
    (part002Setup [⟨1, true, false, 0⟩]).recorderActive = false ∧
    (1 : ℕ) ∈ (part002Setup [⟨1, true, false, 0⟩]).routed := by
  have h := C6_theorem [⟨1, true, false, 0⟩] (by decide)
  exact ⟨h.1, h.2.2.1, h.2.2.2.1 ⟨1, true, false, 0⟩ (by decide)⟩

/-- Claim C5 counterexample: in tools/captureAudio.ts the eligibility
check does not cover the extension's own chrome-extension:// pages, so
a start request against such a page proceeds to script injection; and a
start request against a chrome:// page, though blocked, emits no status
message at all, against the claimed inactive status with a message. -/
theorem C5_counterexample :
    (toolsCaptureAudio (some ⟨some 1, some "chrome-extension://abc/index.html"⟩)
        false none).setupInjected = true ∧
    (toolsCaptureAudio (some ⟨some 1, some "chrome://settings/"⟩)
        false none).messages = [] := by
  decide

/-- Claim C5 (amended): in the part002 variant of captureAudio, every
call whose active-tab URL is under chrome://, edge://, about: or
chrome-extension:// injects nothing, changes no page state, returns
null and emits exactly the one inactive status message with the
specific text; the function never throws, it returns an outcome. -/
theorem C5_amended (i : ℕ) (u : String) (page : Option RecState) (isStopRequest : Bool)
    (hpriv : strStarts u "chrome://" = true ∨ strStarts u "edge://" = true ∨
             strStarts u "about:" = true ∨ strStarts u "chrome-extension://" = true) :
    part002CaptureAudio (some ⟨some i, some u⟩) isStopRequest page =
      { messages := [{ status := RecordingStatus.inactive,
                       message := some "Cannot record audio on this page" }],
        page := page, setupInjected := false, result := none } := by
  have hb : privilegedUrlPart002 (some u) = true := by
    unfold privilegedUrlPart002
    rcases hpriv with h | h | h | h <;> simp [h]
  simp [part002CaptureAudio, hb]

/-- Claim C5 witness: a chrome:// page is blocked with the message. -/
theorem C5_amended_witness :
    part002CaptureAudio (some ⟨some 1, some "chrome://settings/"⟩) false none =
      { messages := [{ status := RecordingStatus.inactive,
                       message := some "Cannot record audio on this page" }],
        page := none, setupInjected := false, result := none } :=
  C5_amended 1 "chrome://settings/" none false (Or.inl (by decide))

/-- Claim C7 counterexample: in the part002 variant the URL eligibility
check runs before the stop-request branch, so a stop request issued
while no session is active but the active tab is a chrome:// page fires
an inactive status message, against the claimed silent no-op. -/
theorem C7_counterexample :
    (part002CaptureAudio (some ⟨some 1, some "chrome://settings/"⟩) true none).messages ≠
      [] := by
  decide

/-- Claim C7 (amended): a stop request issued while no recording
session is active is a silent no-op returning null — unconditionally in
tools/captureAudio.ts, and in the part002 variant whenever the active
tab's URL passes the eligibility check (an ineligible tab makes part002
emit its inactive eligibility message instead). -/
theorem C7_amended (i : ℕ) (turl : Option String) (page : Option RecState)
    (hnosession : page ≠ some RecState.recordingR) :
    toolsCaptureAudio (some ⟨some i, turl⟩) true page =
      { messages := [], page := page, setupInjected := false, result := none } ∧
    (privilegedUrlPart002 turl = false →
      part002CaptureAudio (some ⟨some i, turl⟩) true page =
        { messages := [], page := page, setupInjected := false, result := none }) := by
  have hstop : stopScriptRun page = page := by
    cases page with
    | none => rfl
    | some r =>
      cases r with
      | recordingR => exact absurd rfl hnosession
      | inactiveR => rfl
      | pausedR => rfl
  constructor
  · simp [toolsCaptureAudio, hstop]
  · intro helig
    simp [part002CaptureAudio, helig, hstop]

/-- Claim C7 witness: a stop request with no recorder present leaves
everything unchanged — in the tools variant even on a chrome:// tab,
and in the part002 variant on an ordinary https tab. -/
theorem C7_amended_witness :
    toolsCaptureAudio (some ⟨some 1, some "chrome://settings/"⟩) true none =
      { messages := [], page := none, setupInjected := false, result := none } ∧
    part002CaptureAudio (some ⟨some 1, some "https://example.com/"⟩) true none =
      { messages := [], page := none, setupInjected := false, result := none } :=
  ⟨(C7_amended 1 (some "chrome://settings/") none (by decide)).1,
   (C7_amended 1 (some "https://example.com/") none (by decide)).2 (by decide)⟩

/-- Claim C9: the download extension is chosen from the inspected
string with wav, mp3/mpeg, aac-as-m4a as the recognized families in
that precedence and webm as the default for everything unrecognized,
and the filename is the recording timestamp, formatted duration and
quality label glued around the chosen extension. -/
theorem C9_theorem (url timestamp duration qualityLabel : String) :
    (strIncludes url "audio/wav" = true → chosenExt url = "wav") ∧
    (strIncludes url "audio/wav" = false →
      (strIncludes url "audio/mp3" = true ∨ strIncludes url "audio/mpeg" = true) →
      chosenExt url = "mp3") ∧
    (strIncludes url "audio/wav" = false → strIncludes url "audio/mp3" = false →
      strIncludes url "audio/mpeg" = false → strIncludes url "audio/aac" = true →
      chosenExt url = "m4a") ∧
    (strIncludes url "audio/wav" = false → strIncludes url "audio/mp3" = false →
      strIncludes url "audio/mpeg" = false → strIncludes url "audio/aac" = false →
      chosenExt url = "webm") ∧
    downloadFilename timestamp duration qualityLabel url =
      "recording-" ++ timestamp ++ "-" ++ duration ++ "-" ++ qualityLabel ++ "." ++
        chosenExt url := by
  refine ⟨?_, ?_, ?_, ?_, rfl⟩
  · intro h
    simp [chosenExt, h]
  · intro h1 h2
    rcases h2 with h2 | h2 <;> simp [chosenExt, h1, h2]
  · intro h1 h2 h3 h4
    simp [chosenExt, h1, h2, h3, h4]
  · intro h1 h2 h3 h4
    simp [chosenExt, h1, h2, h3, h4]

/-- Claim C9 witness: a wav-typed string gets the wav extension, an
opaque blob URL defaults to webm, and the filename is assembled from
timestamp, duration and quality label. -/
theorem C9_witness :
    chosenExt "blob:audio/wav-rec" = "wav" ∧
    chosenExt "blob:0f3a" = "webm" ∧
    downloadFilename "2025-01-01" "0-42" "HIGH" "blob:0f3a" =
      "recording-2025-01-01-0-42-HIGH.webm" := by
  have h1 := C9_theorem "blob:audio/wav-rec" "t" "d" "q"
  have h2 := C9_theorem "blob:0f3a" "2025-01-01" "0-42" "HIGH"
  refine ⟨h1.1 (by decide),
          h2.2.2.2.1 (by decide) (by decide) (by decide) (by decide), ?_⟩
  have h3 := h2.2.2.2.2
  rw [h2.2.2.2.1 (by decide) (by decide) (by decide) (by decide)] at h3
  exact h3.trans (by decide)

/-- Helper: the notification multiset of setStatus counts each
(listener, status) pair once per subscribed listener. -/
theorem count_notify (F : Finset ℕ) (s : RecordingStatus) (l : ℕ) :
    (F.val.map (fun a => (a, s))).count (l, s) = if l ∈ F then 1 else 0 := by
  have hinj : Function.Injective (fun a : ℕ => (a, s)) := by
    intro a b hab
    simpa using congrArg Prod.fst hab
  rw [show ((l, s) : ℕ × RecordingStatus) = (fun a : ℕ => (a, s)) l from rfl,
    Multiset.count_map_eq_count' _ _ hinj l]
  by_cases hm : l ∈ F
  · rw [if_pos hm]
    exact Multiset.count_eq_one_of_mem F.nodup (Finset.mem_def.mp hm)
  · rw [if_neg hm]
    exact Multiset.count_eq_zero_of_not_mem (fun hc => hm (Finset.mem_def.mpr hc))

/-- Claim C10: setStatus stores the status the getter returns, notifies
every subscribed listener exactly once with that status and only with
it, notifies an unsubscribed listener zero times, and a listener
removed by the unsubscribe closure receives no notification from any
later setStatus call. -/
theorem C10_theorem (st : StoreState) (s : RecordingStatus) (l : ℕ) :
    (setStatus st s).1.status = s ∧
    (∀ m ∈ (setStatus st s).2, m.2 = s) ∧
    (l ∈ st.listeners → (setStatus st s).2.count (l, s) = 1) ∧
    (l ∉ st.listeners → (setStatus st s).2.count (l, s) = 0) ∧
    (∀ s2 : RecordingStatus,
      (setStatus (unsubscribe st l) s2).2.count (l, s2) = 0) := by
  refine ⟨rfl, ?_, ?_, ?_, ?_⟩
  · intro m hm
    simp only [setStatus, Multiset.mem_map] at hm
    obtain ⟨a, _, rfl⟩ := hm
    rfl
  · intro hmem
    show (st.listeners.val.map (fun a => (a, s))).count (l, s) = 1
    rw [count_notify, if_pos hmem]
  · intro hmem
    show (st.listeners.val.map (fun a => (a, s))).count (l, s) = 0
    rw [count_notify, if_neg hmem]
  · intro s2
    show ((st.listeners.erase l).val.map (fun a => (a, s2))).count (l, s2) = 0
    rw [count_notify, if_neg (Finset.not_mem_erase l st.listeners)]

/-- Claim C10 witness: a store with the single listener 7. -/
theorem C10_witness :
    (setStatus ⟨RecordingStatus.inactive, {7}⟩ RecordingStatus.recording).1.status =
      RecordingStatus.recording ∧
    (setStatus ⟨RecordingStatus.inactive, {7}⟩ RecordingStatus.recording).2.count
      (7, RecordingStatus.recording) = 1 ∧
    (setStatus (unsubscribe ⟨RecordingStatus.inactive, {7}⟩ 7)
        RecordingStatus.waiting).2.count (7, RecordingStatus.waiting) = 0 := by
  have h := C10_theorem ⟨RecordingStatus.inactive, {7}⟩ RecordingStatus.recording 7
  exact ⟨h.1, h.2.2.1 (by decide), h.2.2.2.2 RecordingStatus.waiting⟩

end AudioCap
